import Mathlib

/-!
Verification development for the authentication and resource-ownership
subsystem of the portfolio web application.

The embedding follows the source:
* `src/unnamed/part_006` — the mongoose `User` schema: the `isLocked` virtual,
  `comparePassword`, `incLoginAttempts`, `resetLoginAttempts`,
  `generateVerificationToken`, `markVerified`, `createAdmin`.
* `src/routes/auth.js` — the `register`, `login`, `create-admin`,
  `verify-email` and `resend-verification` handlers.
* `src/middleware/auth.js` — `generateToken`, `authenticateToken`,
  `checkOwnership`.

Strings are embedded as `List Char`; timestamps as `Nat` (milliseconds since
epoch, as in `Date.now()`).  One-way hashes (bcrypt, sha-256) and the JWT
HMAC live in external libraries, not in this repository; they are modelled
symbolically as injective tagging functions, the standard symbolic-crypto
reading of an ideal hash/MAC.
-/

namespace Portfolio

/-- Role enum of the user schema (`role: enum ["admin", "user"]`). -/
inductive Role
  | admin
  | user
deriving DecidableEq

/-- The `User` document of `src/unnamed/part_006` (mongoose user schema).
`password` holds the stored bcrypt hash (the pre-save hook hashes the raw
password before it is persisted).  Nullable fields are `Option`. -/
structure User where
  id : List Char
  email : List Char
  password : List Char
  name : List Char
  role : Role
  isActive : Bool
  isVerified : Bool
  verifyToken : Option (List Char)
  verifyExpires : Option Nat
  lastVerificationSent : Option Nat
  lastLogin : Option Nat
  loginAttempts : Nat
  lockUntil : Option Nat
deriving DecidableEq

/-- Modelled from the spec: bcrypt's one-way password hash (library
`bcryptjs`, not part of this repository's source).  Symbolic injective
constructor standing for `bcrypt.hash`. -/
def bcryptHash (rawPassword : List Char) : List Char :=
  'B' :: rawPassword

/-- Modelled from the spec: Node `crypto.createHash("sha256").digest("hex")`
(library code, not part of this repository's source).  Symbolic injective
constructor standing for the sha-256 hex digest. -/
def sha256Hex (input : List Char) : List Char :=
  'S' :: input

/-- `userSchema.methods.comparePassword`: bcrypt comparison of a candidate
password against the stored hash. -/
def comparePassword (candidatePassword storedHash : List Char) : Bool :=
  bcryptHash candidatePassword == storedHash

/-- The `isLocked` virtual: `!!(this.lockUntil && this.lockUntil > Date.now())`. -/
def isLocked (u : User) (now : Nat) : Bool :=
  match u.lockUntil with
  | some t => decide (now < t)
  | none => false

/-- `this.lockUntil && this.lockUntil < Date.now()` — a previous lock that
has expired (first branch of `incLoginAttempts`). -/
def lockExpired (u : User) (now : Nat) : Bool :=
  match u.lockUntil with
  | some t => decide (t < now)
  | none => false

/-- Lock duration: `Date.now() + 2 * 60 * 60 * 1000` (2 hours, ms). -/
def lockTimeMs : Nat := 2 * 60 * 60 * 1000

/-- Failed-attempt threshold from `incLoginAttempts`: lock after 5. -/
def maxLoginAttempts : Nat := 5

/-- `userSchema.methods.incLoginAttempts`.  If a previous lock has expired,
restart the counter at 1 and clear the lock; otherwise increment, locking
for 2 hours when the count reaches 5 and the account is not already locked. -/
def incLoginAttempts (u : User) (now : Nat) : User :=
  if lockExpired u now then
    { u with lockUntil := none, loginAttempts := 1 }
  else if maxLoginAttempts ≤ u.loginAttempts + 1 ∧ isLocked u now = false then
    { u with loginAttempts := u.loginAttempts + 1, lockUntil := some (now + lockTimeMs) }
  else
    { u with loginAttempts := u.loginAttempts + 1 }

/-- `userSchema.methods.resetLoginAttempts`: unset the counter and the lock,
record `lastLogin`. -/
def resetLoginAttempts (u : User) (now : Nat) : User :=
  { u with loginAttempts := 0, lockUntil := none, lastLogin := some now }

/-- Outcomes of `POST /api/auth/login` (`src/routes/auth.js`). -/
inductive LoginResult
  | invalidCredentials
  | emailNotVerified
  | accountLocked (lockUntil : Option Nat)
  | accountDeactivated
  | loginSuccess
deriving DecidableEq

/-- `POST /api/auth/login` after the `User.findOne` lookup: gate order is
verified → locked → active → password; a failed password increments the
attempt counter, a success resets it. -/
def login (u : Option User) (password : List Char) (now : Nat) :
    LoginResult × Option User :=
  match u with
  | none => (.invalidCredentials, none)
  | some user =>
    if user.isVerified = false then (.emailNotVerified, some user)
    else if isLocked user now then (.accountLocked user.lockUntil, some user)
    else if user.isActive = false then (.accountDeactivated, some user)
    else if comparePassword password user.password then
      (.loginSuccess, some (resetLoginAttempts user now))
    else
      (.invalidCredentials, some (incLoginAttempts user now))

/-- Verification-token lifetime: `expiresInMs = 24 * 60 * 60 * 1000` (the
default argument of `generateVerificationToken`, never overridden by any
caller). -/
def verificationExpiryMs : Nat := 24 * 60 * 60 * 1000

/-- `userSchema.methods.generateVerificationToken`: store the sha-256 hash of
the plaintext token, a 24-hour expiry and the send timestamp; the plaintext
(generated by `crypto.randomBytes`, here a parameter) goes back to the
caller. -/
def generateVerificationToken (u : User) (plainToken : List Char) (now : Nat) : User :=
  { u with
    verifyToken := some (sha256Hex plainToken)
    verifyExpires := some (now + verificationExpiryMs)
    lastVerificationSent := some now }

/-- `userSchema.methods.markVerified`. -/
def markVerified (u : User) : User :=
  { u with isVerified := true, verifyToken := none, verifyExpires := none }

/-- Outcomes of `GET /api/auth/verify-email` (`src/routes/auth.js`).
`redirectSuccess` is the redirect to `/verify-success.html` (issued both for
an already-verified user and for a fresh successful consume);
`redirectFailed` is the redirect to `/verify-failed.html`. -/
inductive VerifyEmailResult
  | userNotFound
  | noToken
  | redirectFailed
  | redirectSuccess
deriving DecidableEq

/-- `GET /api/auth/verify-email` after the `User.findOne` lookup: an already
verified user short-circuits to the success redirect; otherwise both the
stored hash and expiry must be present, the sha-256 hash of the supplied
token must equal the stored hash and the expiry must not have passed
(`hash !== user.verifyToken || user.verifyExpires < Date.now()` fails). -/
def verifyEmail (u : Option User) (token : List Char) (now : Nat) :
    VerifyEmailResult × Option User :=
  match u with
  | none => (.userNotFound, none)
  | some user =>
    if user.isVerified then (.redirectSuccess, some user)
    else
      match user.verifyToken, user.verifyExpires with
      | some storedHash, some expiresAt =>
        if sha256Hex token ≠ storedHash ∨ expiresAt < now then
          (.redirectFailed, some user)
        else
          (.redirectSuccess,
           some { user with isVerified := true, verifyToken := none, verifyExpires := none })
      | some _, none => (.noToken, some user)
      | none, _ => (.noToken, some user)

/-- Outcomes of `POST /api/auth/resend-verification`. -/
inductive ResendResult
  | userNotFound
  | alreadyVerified
  | tooManyRequests (retryAfter : Nat)
  | resent (cooldown : Nat)
deriving DecidableEq

/-- Resend cooldown: `RESEND_COOLDOWN_SECONDS || 60`. -/
def resendCooldownSeconds : Nat := 60

/-- `POST /api/auth/resend-verification` after the `User.findOne` lookup:
rejects a verified user, enforces the 60-second cooldown on
`lastVerificationSent` (`elapsed = floor((now - last) / 1000)`; when
`elapsed < 60` it answers 429 with `retryAfter = 60 - elapsed`), otherwise
issues a fresh verification token. -/
def resendVerification (u : Option User) (plainToken : List Char) (now : Nat) :
    ResendResult × Option User :=
  match u with
  | none => (.userNotFound, none)
  | some user =>
    if user.isVerified then (.alreadyVerified, some user)
    else
      match user.lastVerificationSent with
      | some last =>
        let elapsed := (now - last) / 1000
        if elapsed < resendCooldownSeconds then
          (.tooManyRequests (resendCooldownSeconds - elapsed), some user)
        else
          (.resent resendCooldownSeconds,
           some (generateVerificationToken user plainToken now))
      | none =>
        (.resent resendCooldownSeconds,
         some (generateVerificationToken user plainToken now))

/-- A freshly constructed `User` document (`new User({...})`) with the
schema defaults, holding the bcrypt hash the pre-save hook produces. -/
def newUser (id name email rawPassword : List Char) (role : Role) : User :=
  { id := id
    email := email
    password := bcryptHash rawPassword
    name := name
    role := role
    isActive := true
    isVerified := false
    verifyToken := none
    verifyExpires := none
    lastVerificationSent := none
    lastLogin := none
    loginAttempts := 0
    lockUntil := none }

/-- The user record persisted by `POST /api/auth/register`: a fresh
unverified `role: "user"` document with a verification token generated on
it before the save. -/
def registerUser (id name email rawPassword plainToken : List Char) (now : Nat) : User :=
  generateVerificationToken (newUser id name email rawPassword Role.user) plainToken now

/-- The admin record persisted by `POST /api/auth/create-admin` on the
bootstrap path (no admin exists yet): `User.createAdmin` builds a fresh
`role: "admin"` document, then the route sets `isVerified = true` and
saves. -/
def createAdmin (id name email rawPassword : List Char) : User :=
  { newUser id name email rawPassword Role.admin with isVerified := true }

/-- Split a character list at the first occurrence of `sep`:
`none` when `sep` does not occur. -/
def splitAtFirst (sep : Char) : List Char → Option (List Char × List Char)
  | [] => none
  | c :: cs =>
    if c = sep then some ([], cs)
    else
      match splitAtFirst sep cs with
      | none => none
      | some pr => some (c :: pr.1, pr.2)

/-- Decimal digit `d` (`d < 10`) as the character `'0' + d`. -/
def digitChar (d : Nat) : Char := Char.ofNat (48 + d)

/-- Fuel-driven big-endian decimal rendering of a natural number. -/
def encNatAux : Nat → Nat → List Char
  | 0, _ => []
  | fuel + 1, n =>
    if n < 10 then [digitChar n]
    else encNatAux fuel (n / 10) ++ [digitChar (n % 10)]

/-- Big-endian decimal rendering of a natural number. -/
def encNat (n : Nat) : List Char := encNatAux (n + 1) n

/-- Parse a single decimal digit character. -/
def charDigit (c : Char) : Option Nat :=
  if 48 ≤ c.toNat ∧ c.toNat ≤ 57 then some (c.toNat - 48) else none

/-- `Option`-valued map over a list, failing if any element fails. -/
def mapOpt (f : Char → Option Nat) : List Char → Option (List Nat)
  | [] => some []
  | c :: cs =>
    match f c, mapOpt f cs with
    | some d, some ds => some (d :: ds)
    | some _, none => none
    | none, _ => none

/-- Value of a big-endian digit list. -/
def decBE (ds : List Nat) : Nat := ds.foldl (fun a d => 10 * a + d) 0

/-- Parse a big-endian decimal character list. -/
def decNat (l : List Char) : Option Nat :=
  match mapOpt charDigit l with
  | none => none
  | some ds => some (decBE ds)

/-- JWT lifetime: `expiresIn: "7d"` in `generateToken`, in seconds. -/
def jwtExpiresInSec : Nat := 7 * 24 * 60 * 60

/-- Modelled from the spec: the HMAC of the `jsonwebtoken` library (external
code).  Symbolic MAC over an ideal hash: a tag that is injective in the
signed payload for a fixed secret. -/
def jwtMac (secret payload : List Char) : List Char := secret ++ payload

/-- The signed claims of a token: expiry then identity id, bar-separated
(stands for the base64url JSON claims segment of a JWT). -/
def encodePayload (id : List Char) (exp : Nat) : List Char :=
  encNat exp ++ '|' :: id

/-- Decode the claims segment back into `(identityId, exp)`. -/
def decodePayload (p : List Char) : Option (List Char × Nat) :=
  match splitAtFirst '|' p with
  | none => none
  | some pr =>
    match decNat pr.1 with
    | none => none
    | some exp => some (pr.2, exp)

/-- Modelled from the spec: `jwt.sign({ userId }, secret, { expiresIn: "7d" })`
as called by `generateToken` in `src/middleware/auth.js` — a signed bundle
`claims ++ "." ++ mac(secret, claims)`. -/
def jwtSign (secret id : List Char) (now : Nat) : List Char :=
  let p := encodePayload id (now + jwtExpiresInSec)
  p ++ '.' :: jwtMac secret p

/-- Result of `jwt.verify`: `malformed` for a structure/signature failure
(`JsonWebTokenError`), `expired` for `TokenExpiredError`. -/
inductive JwtResult
  | ok (id : List Char) (exp : Nat)
  | malformed
  | expired
deriving DecidableEq

/-- Modelled from the spec: `jwt.verify(token, secret)` — split off the
signature, check it against the MAC of the claims, decode the claims, then
check expiry (expired when `now ≥ exp`). -/
def jwtVerify (secret token : List Char) (now : Nat) : JwtResult :=
  match splitAtFirst '.' token with
  | none => .malformed
  | some pr =>
    if pr.2 = jwtMac secret pr.1 then
      match decodePayload pr.1 with
      | none => .malformed
      | some idExp => if now < idExp.2 then .ok idExp.1 idExp.2 else .expired
    else .malformed

/-- `generateToken` of `src/middleware/auth.js`. -/
def generateToken (secret id : List Char) (now : Nat) : List Char :=
  jwtSign secret id now

/-- The response of `POST /api/auth/register`: the bearer token
`generateToken(user._id)` together with the persisted (unverified) user. -/
def register (secret id name email rawPassword plainToken : List Char) (now : Nat) :
    List Char × User :=
  (generateToken secret id now, registerUser id name email rawPassword plainToken now)

/-- Outcomes of the `authenticateToken` middleware. -/
inductive AuthResult
  | missingToken
  | invalidToken
  | tokenExpired
  | accountDeactivated
  | accountLocked
  | authenticated (u : User)
deriving DecidableEq

/-- `authenticateToken` of `src/middleware/auth.js`: require a bearer token,
verify it, load the user by the embedded id (`findById` stands for the
database), then check `isActive` and the lock — never `isVerified`. -/
def authenticateToken (secret : List Char) (bearer : Option (List Char))
    (findById : List Char → Option User) (now : Nat) : AuthResult :=
  match bearer with
  | none => .missingToken
  | some token =>
    match jwtVerify secret token now with
    | .malformed => .invalidToken
    | .expired => .tokenExpired
    | .ok uid _ =>
      match findById uid with
      | none => .invalidToken
      | some user =>
        if user.isActive = false then .accountDeactivated
        else if isLocked user now then .accountLocked
        else .authenticated user

/-- An owned resource as seen by `checkOwnership` (tasks, contacts,
projects): optional `userId` / `createdBy` identity owners and an optional
anonymous `sessionId` owner. -/
structure Resource where
  userId : Option (List Char)
  createdBy : Option (List Char)
  sessionId : Option (List Char)
deriving DecidableEq

/-- Outcomes of the `checkOwnership` middleware. -/
inductive OwnershipResult
  | notFound
  | accessDenied
  | granted (r : Resource)
deriving DecidableEq

/-- `checkOwnership` of `src/middleware/auth.js`: 404 when the resource id
resolves to nothing; otherwise grant when the authenticated user matches
`userId` or `createdBy`, or the request's session id matches `sessionId`,
or the authenticated user is an admin; otherwise 403. -/
def checkOwnership (findById : List Char → Option Resource) (resourceId : List Char)
    (reqUser : Option User) (reqSessionId : Option (List Char)) : OwnershipResult :=
  match findById resourceId with
  | none => .notFound
  | some resource =>
    let isOwner : Bool :=
      match reqUser with
      | some u => decide (resource.userId = some u.id) || decide (resource.createdBy = some u.id)
      | none => false
    let isSessionOwner : Bool :=
      match reqSessionId with
      | some s => decide (resource.sessionId = some s)
      | none => false
    let isAdmin : Bool :=
      match reqUser with
      | some u => decide (u.role = Role.admin)
      | none => false
    if isOwner || isSessionOwner || isAdmin then .granted resource
    else .accessDenied

/-- The invariant of the data model: a verified identity holds no
verification-token hash and no expiry. -/
def verifInvariant (u : User) : Prop :=
  u.isVerified = true → u.verifyToken = none ∧ u.verifyExpires = none

theorem splitAtFirst_append (sep : Char) (p r : List Char) (h : sep ∉ p) :
    splitAtFirst sep (p ++ sep :: r) = some (p, r) := by
  induction p with
  | nil => simp [splitAtFirst]
  | cons c cs ih =>
    have hc : ¬ (c = sep) := fun e => h (by simp [e])
    have hcs : sep ∉ cs := fun m => h (List.mem_cons_of_mem c m)
    simp [splitAtFirst, hc, ih hcs]

theorem splitAtFirst_eq_none (sep : Char) (l : List Char) (h : sep ∉ l) :
    splitAtFirst sep l = none := by
  induction l with
  | nil => rfl
  | cons c cs ih =>
    have hc : ¬ (c = sep) := fun e => h (by simp [e])
    have hcs : sep ∉ cs := fun m => h (List.mem_cons_of_mem c m)
    simp [splitAtFirst, hc, ih hcs]

theorem charDigit_digitChar (d : Nat) (h : d < 10) : charDigit (digitChar d) = some d := by
  interval_cases d <;> decide

theorem digitChar_ne_dot (d : Nat) (h : d < 10) : digitChar d ≠ '.' := by
  interval_cases d <;> decide

theorem digitChar_ne_bar (d : Nat) (h : d < 10) : digitChar d ≠ '|' := by
  interval_cases d <;> decide

theorem encNatAux_mem (fuel : Nat) :
    ∀ n c, c ∈ encNatAux fuel n → ∃ d, d < 10 ∧ c = digitChar d := by
  induction fuel with
  | zero => intro n c hc; simp [encNatAux] at hc
  | succ f ih =>
    intro n c hc
    by_cases hn : n < 10
    · simp [encNatAux, hn] at hc
      exact ⟨n, hn, hc⟩
    · simp [encNatAux, hn] at hc
      rcases hc with hc | hc
      · exact ih _ _ hc
      · exact ⟨n % 10, Nat.mod_lt _ (by norm_num), hc⟩

theorem encNat_not_dot (n : Nat) : '.' ∉ encNat n := by
  intro hmem
  obtain ⟨d, hd, he⟩ := encNatAux_mem (n + 1) n '.' hmem
  exact digitChar_ne_dot d hd he.symm

theorem encNat_not_bar (n : Nat) : '|' ∉ encNat n := by
  intro hmem
  obtain ⟨d, hd, he⟩ := encNatAux_mem (n + 1) n '|' hmem
  exact digitChar_ne_bar d hd he.symm

theorem mapOpt_append (f : Char → Option Nat) (a b : List Char) (as bs : List Nat)
    (ha : mapOpt f a = some as) (hb : mapOpt f b = some bs) :
    mapOpt f (a ++ b) = some (as ++ bs) := by
  induction a generalizing as with
  | nil =>
    simp [mapOpt] at ha
    subst ha
    simpa using hb
  | cons c cs ih =>
    cases hfc : f c with
    | none => simp [mapOpt, hfc] at ha
    | some d =>
      cases hcs : mapOpt f cs with
      | none => simp [mapOpt, hfc, hcs] at ha
      | some ds =>
        simp [mapOpt, hfc, hcs] at ha
        subst ha
        simp [mapOpt, hfc, ih ds hcs]

theorem decBE_concat (ds : List Nat) (d : Nat) :
    decBE (ds ++ [d]) = 10 * decBE ds + d := by
  simp [decBE, List.foldl_append]

theorem encNatAux_dec (fuel : Nat) :
    ∀ n, n < fuel →
      ∃ ds, mapOpt charDigit (encNatAux fuel n) = some ds ∧ decBE ds = n := by
  induction fuel with
  | zero => intro n h; omega
  | succ f ih =>
    intro n h
    by_cases hn : n < 10
    · refine ⟨[n], ?_, ?_⟩
      · simp [encNatAux, hn, mapOpt, charDigit_digitChar n hn]
      · simp [decBE]
    · have h10 : n / 10 < f := by
        have hlt : n / 10 < n := Nat.div_lt_self (by omega) (by norm_num)
        omega
      obtain ⟨ds, hds, hval⟩ := ih (n / 10) h10
      have hm : mapOpt charDigit [digitChar (n % 10)] = some [n % 10] := by
        simp [mapOpt, charDigit_digitChar _ (Nat.mod_lt _ (by norm_num))]
      refine ⟨ds ++ [n % 10], ?_, ?_⟩
      · simp only [encNatAux, if_neg hn]
        exact mapOpt_append _ _ _ _ _ hds hm
      · rw [decBE_concat, hval]
        omega

theorem decNat_encNat (n : Nat) : decNat (encNat n) = some n := by
  obtain ⟨ds, hds, hval⟩ := encNatAux_dec (n + 1) n (by omega)
  simp [decNat, encNat] at hds ⊢
  simp [hds, hval]

theorem decodePayload_encodePayload (id : List Char) (e : Nat) :
    decodePayload (encodePayload id e) = some (id, e) := by
  simp [decodePayload, encodePayload,
    splitAtFirst_append '|' (encNat e) id (encNat_not_bar e), decNat_encNat]

theorem encodePayload_not_dot (id : List Char) (e : Nat) (hid : '.' ∉ id) :
    '.' ∉ encodePayload id e := by
  intro hmem
  simp [encodePayload] at hmem
  rcases hmem with hmem | hmem
  · exact encNat_not_dot e hmem
  · exact hid hmem

theorem jwtVerify_mac_ok (secret p i : List Char) (e now : Nat) (hp : '.' ∉ p)
    (hdec : decodePayload p = some (i, e)) (hnow : now < e) :
    jwtVerify secret (p ++ '.' :: jwtMac secret p) now = .ok i e := by
  unfold jwtVerify
  rw [splitAtFirst_append '.' p (jwtMac secret p) hp]
  simp [hdec, hnow]

theorem jwtSign_eq (secret id : List Char) (now : Nat) :
    jwtSign secret id now =
      encodePayload id (now + jwtExpiresInSec) ++
        '.' :: jwtMac secret (encodePayload id (now + jwtExpiresInSec)) := rfl

theorem jwtVerify_jwtSign (secret id : List Char) (now : Nat) (hid : '.' ∉ id) :
    jwtVerify secret (jwtSign secret id now) now = .ok id (now + jwtExpiresInSec) := by
  rw [jwtSign_eq]
  exact jwtVerify_mac_ok secret _ id (now + jwtExpiresInSec) now
    (encodePayload_not_dot id _ hid) (decodePayload_encodePayload id _)
    (by simp [jwtExpiresInSec])

theorem jwtMac_not_dot (secret p : List Char) (hs : '.' ∉ secret) (hp : '.' ∉ p) :
    '.' ∉ jwtMac secret p := by
  intro hmem
  simp [jwtMac] at hmem
  rcases hmem with hmem | hmem
  · exact hs hmem
  · exact hp hmem

theorem set_ne_of_ne (l : List Char) (i : Nat) (c : Char) (h : i < l.length)
    (hc : c ≠ l[i]) : l.set i c ≠ l := by
  intro he
  apply hc
  have hset : i < (l.set i c).length := by simpa using h
  calc c = (l.set i c)[i] := (List.getElem_set_self hset).symm
    _ = l[i] := by simp [he]

theorem jwtVerify_tampered (secret p : List Char) (now2 : Nat)
    (hs : '.' ∉ secret) (hp : '.' ∉ p) (i : Nat) (c : Char)
    (hi : i < (p ++ '.' :: jwtMac secret p).length)
    (hc : c ≠ (p ++ '.' :: jwtMac secret p).get ⟨i, hi⟩) :
    jwtVerify secret ((p ++ '.' :: jwtMac secret p).set i c) now2 = .malformed := by
  have hilen : i < p.length + ((jwtMac secret p).length + 1) := by
    simpa [List.length_append] using hi
  have hmlen : (jwtMac secret p).length = secret.length + p.length := by
    simp [jwtMac]
  rw [List.get_eq_getElem] at hc
  rcases Nat.lt_trichotomy i p.length with h1 | h1 | h1
  · -- the changed character lies in the claims segment
    have hget : (p ++ '.' :: jwtMac secret p)[i] = p[i] :=
      List.getElem_append_left h1
    rw [hget] at hc
    have hset : (p ++ '.' :: jwtMac secret p).set i c =
        p.set i c ++ '.' :: jwtMac secret p := by
      rw [List.set_append]
      simp [h1]
    rw [hset]
    by_cases hdot : c = '.'
    · -- the character was changed into the separator: the claims segment
      -- seen by the parser shrinks and the signature length cannot match
      subst hdot
      have htake : '.' ∉ p.take i := fun m => hp (List.take_subset i p m)
      have hsplitform : p.set i '.' ++ '.' :: jwtMac secret p =
          p.take i ++ '.' :: (p.drop (i + 1) ++ '.' :: jwtMac secret p) := by
        rw [List.set_eq_take_cons_drop '.' h1]
        simp
      rw [hsplitform]
      unfold jwtVerify
      rw [splitAtFirst_append '.' (p.take i) _ htake]
      have hne : ¬ (p.drop (i + 1) ++ '.' :: jwtMac secret p =
          jwtMac secret (p.take i)) := by
        intro heq
        have hlen := congrArg List.length heq
        simp [jwtMac, List.length_append, List.length_take, List.length_drop] at hlen
        omega
      simp [hne]
    · -- the character was changed inside the claims segment: the MAC of the
      -- altered claims no longer matches the stored signature
      have hpset : '.' ∉ p.set i c := by
        intro hmem
        rcases List.mem_or_eq_of_mem_set hmem with hmem | hmem
        · exact hp hmem
        · exact hdot hmem.symm
      unfold jwtVerify
      rw [splitAtFirst_append '.' (p.set i c) _ hpset]
      have hne : ¬ (jwtMac secret p = jwtMac secret (p.set i c)) := by
        intro heq
        have hcancel : p = p.set i c := List.append_cancel_left heq
        exact set_ne_of_ne p i c h1 hc hcancel.symm
      simp [hne]
  · -- the separator itself was overwritten: no dot remains in the token
    subst h1
    have hget : (p ++ '.' :: jwtMac secret p)[p.length] = '.' := by
      rw [List.getElem_append_right (Nat.le_refl p.length)]
      simp
    rw [hget] at hc
    have hset : (p ++ '.' :: jwtMac secret p).set p.length c =
        p ++ c :: jwtMac secret p := by
      rw [List.set_append]
      simp [List.set]
    rw [hset]
    have hnodot : '.' ∉ p ++ c :: jwtMac secret p := by
      intro hmem
      simp at hmem
      rcases hmem with hmem | hmem | hmem
      · exact hp hmem
      · exact hc hmem.symm
      · exact jwtMac_not_dot secret p hs hp hmem
    unfold jwtVerify
    rw [splitAtFirst_eq_none '.' _ hnodot]
  · -- the changed character lies in the signature: the stored signature no
    -- longer equals the MAC of the (unchanged) claims
    obtain ⟨j, hj⟩ : ∃ j, i = p.length + (j + 1) := ⟨i - p.length - 1, by omega⟩
    subst hj
    have hjlen : j < (jwtMac secret p).length := by omega
    have hget : (p ++ '.' :: jwtMac secret p)[p.length + (j + 1)] =
        (jwtMac secret p)[j] := by
      rw [List.getElem_append_right (by omega : p.length ≤ p.length + (j + 1))]
      simp
    rw [hget] at hc
    have hset : (p ++ '.' :: jwtMac secret p).set (p.length + (j + 1)) c =
        p ++ '.' :: (jwtMac secret p).set j c := by
      rw [List.set_append]
      simp [List.set]
    rw [hset]
    unfold jwtVerify
    rw [splitAtFirst_append '.' p _ hp]
    have hne : ¬ ((jwtMac secret p).set j c = jwtMac secret p) :=
      set_ne_of_ne (jwtMac secret p) j c hjlen hc
    simp [hne]

end Portfolio

namespace Portfolio

/-- A concrete user record for witnessing: an active, unverified, unlocked
default user. -/
def baseUser : User :=
  { id := ['u']
    email := ['e']
    password := bcryptHash ['p']
    name := ['n']
    role := Role.user
    isActive := true
    isVerified := false
    verifyToken := none
    verifyExpires := none
    lastVerificationSent := none
    lastLogin := none
    loginAttempts := 0
    lockUntil := none }

/-- C1: a failed-password login attempt that brings the failed-login count to
the threshold of 5 transitions the identity from Unlocked to Locked with a
lock duration of 2 hours from the moment of the attempt; while the identity
is Locked (`lockUntil` in the future), every login attempt fails with
`ACCOUNT_LOCKED` regardless of password correctness and leaves the user —
in particular the failed-login counter — unchanged. -/
theorem lockout_threshold_and_locked_behavior (u : User) (pw : List Char) (now : Nat)
    (hver : u.isVerified = true) :
    (u.isActive = true → u.lockUntil = none → u.loginAttempts = 4 →
      comparePassword pw u.password = false →
      login (some u) pw now =
        (.invalidCredentials,
         some { u with loginAttempts := 5, lockUntil := some (now + lockTimeMs) })) ∧
    (∀ t, u.lockUntil = some t → now < t →
      login (some u) pw now = (.accountLocked (some t), some u)) := by
  constructor
  · intro hact hlock hcnt hpw
    simp [login, isLocked, incLoginAttempts, lockExpired, maxLoginAttempts,
      hver, hact, hlock, hcnt, hpw]
  · intro t ht hnow
    simp [login, isLocked, ht, hver, hnow]

/-- C1 witness: the fifth failed attempt locks a concrete user for 2 hours,
and a locked user gets `ACCOUNT_LOCKED` even on the correct password. -/
theorem lockout_threshold_and_locked_behavior_witness :
    ({ baseUser with isVerified := true, loginAttempts := 4 } : User).isVerified = true ∧
    login (some { baseUser with isVerified := true, loginAttempts := 4 }) ['x'] 100 =
      (.invalidCredentials,
       some { baseUser with isVerified := true, loginAttempts := 5, lockUntil := some (100 + lockTimeMs) }) ∧
    comparePassword ['p'] ({ baseUser with isVerified := true, lockUntil := some 5000 } : User).password = true ∧
    login (some { baseUser with isVerified := true, lockUntil := some 5000 }) ['p'] 100 =
      (.accountLocked (some 5000), some { baseUser with isVerified := true, lockUntil := some 5000 }) :=
  ⟨rfl,
   (lockout_threshold_and_locked_behavior
     { baseUser with isVerified := true, loginAttempts := 4 } ['x'] 100 rfl).1
     rfl rfl rfl (by decide),
   by decide,
   (lockout_threshold_and_locked_behavior
     { baseUser with isVerified := true, lockUntil := some 5000 } ['p'] 100 rfl).2
     5000 rfl (by decide)⟩

/-- C2: a login attempt against an unverified identity fails with
`EMAIL_NOT_VERIFIED` for any supplied password and regardless of the lockout
state, and leaves the user record (in particular `loginAttempts`)
unchanged. -/
theorem unverified_login_gated (u : User) (pw : List Char) (now : Nat)
    (hver : u.isVerified = false) :
    login (some u) pw now = (.emailNotVerified, some u) := by
  simp [login, hver]

/-- C2 witness: an unverified user with a locked account and the correct
password still gets `EMAIL_NOT_VERIFIED`, unchanged. -/
theorem unverified_login_gated_witness :
    ({ baseUser with lockUntil := some 99999 } : User).isVerified = false ∧
    login (some { baseUser with lockUntil := some 99999 }) ['p'] 100 =
      (.emailNotVerified, some { baseUser with lockUntil := some 99999 }) :=
  ⟨rfl, unverified_login_gated { baseUser with lockUntil := some 99999 } ['p'] 100 rfl⟩

theorem checkOwnership_found (findRes : List Char → Option Resource)
    (rid : List Char) (reqUser : Option User) (reqSess : Option (List Char))
    (r : Resource) (hr : findRes rid = some r) :
    checkOwnership findRes rid reqUser reqSess = .granted r ∨
    checkOwnership findRes rid reqUser reqSess = .accessDenied := by
  unfold checkOwnership
  rw [hr]
  dsimp only
  split
  · exact Or.inl rfl
  · exact Or.inr rfl

/-- C3: for an existing resource, `checkOwnership` grants access iff the
caller is an authenticated admin, or the caller's identity id matches the
resource's owner identity (`userId` or `createdBy`), or the caller's session
id matches the resource's `sessionId`; in all other cases it answers
`ACCESS_DENIED`.  For a missing resource id it answers `NOT_FOUND` for every
caller, so no ownership comparison is reached. -/
theorem checkOwnership_decision (findRes : List Char → Option Resource)
    (rid : List Char) (reqUser : Option User) (reqSess : Option (List Char)) :
    (findRes rid = none → checkOwnership findRes rid reqUser reqSess = .notFound) ∧
    (∀ r, findRes rid = some r →
      (checkOwnership findRes rid reqUser reqSess = .granted r ↔
        (∃ u, reqUser = some u ∧ u.role = Role.admin) ∨
        (∃ u, reqUser = some u ∧ (r.userId = some u.id ∨ r.createdBy = some u.id)) ∨
        (∃ s, reqSess = some s ∧ r.sessionId = some s)) ∧
      (¬ ((∃ u, reqUser = some u ∧ u.role = Role.admin) ∨
          (∃ u, reqUser = some u ∧ (r.userId = some u.id ∨ r.createdBy = some u.id)) ∨
          (∃ s, reqSess = some s ∧ r.sessionId = some s)) →
        checkOwnership findRes rid reqUser reqSess = .accessDenied)) := by
  refine ⟨fun h => by simp [checkOwnership, h], fun r hr => ?_⟩
  have key : checkOwnership findRes rid reqUser reqSess = .granted r ↔
      (∃ u, reqUser = some u ∧ u.role = Role.admin) ∨
      (∃ u, reqUser = some u ∧ (r.userId = some u.id ∨ r.createdBy = some u.id)) ∨
      (∃ s, reqSess = some s ∧ r.sessionId = some s) := by
    cases reqUser with
    | none =>
      cases reqSess with
      | none => simp [checkOwnership, hr]
      | some s =>
        by_cases hs1 : r.sessionId = some s <;> simp [checkOwnership, hr, hs1]
    | some u =>
      cases reqSess with
      | none =>
        by_cases h1 : r.userId = some u.id <;> by_cases h2 : r.createdBy = some u.id <;>
          by_cases h3 : u.role = Role.admin <;> simp [checkOwnership, hr, h1, h2, h3]
      | some s =>
        by_cases h1 : r.userId = some u.id <;> by_cases h2 : r.createdBy = some u.id <;>
          by_cases h3 : u.role = Role.admin <;> by_cases hs1 : r.sessionId = some s <;>
            simp [checkOwnership, hr, h1, h2, h3, hs1]
  refine ⟨key, fun hn => ?_⟩
  rcases checkOwnership_found findRes rid reqUser reqSess r hr with hg | hd
  · exact absurd (key.mp hg) hn
  · exact hd

/-- C3 witness: a resource owned by session abc is granted to session abc
and denied to session xyz; a missing resource id answers `NOT_FOUND`. -/
theorem checkOwnership_decision_witness :
    ((fun i => if i = ['r'] then some (Resource.mk none none (some ['a', 'b', 'c'])) else none)
        (['r'] : List Char) = some (Resource.mk none none (some ['a', 'b', 'c']))) ∧
    checkOwnership
        (fun i => if i = ['r'] then some (Resource.mk none none (some ['a', 'b', 'c'])) else none)
        ['r'] none (some ['a', 'b', 'c']) =
      .granted (Resource.mk none none (some ['a', 'b', 'c'])) ∧
    checkOwnership
        (fun i => if i = ['r'] then some (Resource.mk none none (some ['a', 'b', 'c'])) else none)
        ['r'] none (some ['x', 'y', 'z']) = .accessDenied ∧
    checkOwnership
        (fun i => if i = ['r'] then some (Resource.mk none none (some ['a', 'b', 'c'])) else none)
        ['q'] none (some ['a', 'b', 'c']) = .notFound :=
  ⟨by decide,
   ((checkOwnership_decision
       (fun i => if i = ['r'] then some (Resource.mk none none (some ['a', 'b', 'c'])) else none)
       ['r'] none (some ['a', 'b', 'c'])).2
     (Resource.mk none none (some ['a', 'b', 'c'])) (by decide)).1.mpr
     (Or.inr (Or.inr ⟨['a', 'b', 'c'], rfl, rfl⟩)),
   ((checkOwnership_decision
       (fun i => if i = ['r'] then some (Resource.mk none none (some ['a', 'b', 'c'])) else none)
       ['r'] none (some ['x', 'y', 'z'])).2
     (Resource.mk none none (some ['a', 'b', 'c'])) (by decide)).2
     (by simp),
   (checkOwnership_decision
       (fun i => if i = ['r'] then some (Resource.mk none none (some ['a', 'b', 'c'])) else none)
       ['q'] none (some ['a', 'b', 'c'])).1 (by decide)⟩

/-- C4: issuing a token for an identity id and validating it returns the
same id (with the 7-day expiry); changing any one character of the issued
token makes validation fail with the malformed-token error, at any
validation time. -/
theorem token_roundtrip_and_tamper (secret id : List Char) (now : Nat)
    (hs : '.' ∉ secret) (hid : '.' ∉ id) :
    jwtVerify secret (jwtSign secret id now) now = .ok id (now + jwtExpiresInSec) ∧
    ∀ (i : Nat) (c : Char) (now2 : Nat) (hi : i < (jwtSign secret id now).length),
      c ≠ (jwtSign secret id now).get ⟨i, hi⟩ →
      jwtVerify secret ((jwtSign secret id now).set i c) now2 = .malformed := by
  constructor
  · exact jwtVerify_jwtSign secret id now hid
  · intro i c now2 hi hc
    exact jwtVerify_tampered secret (encodePayload id (now + jwtExpiresInSec)) now2
      hs (encodePayload_not_dot id _ hid) i c hi hc

/-- C4 witness: a concrete round trip, and a one-character change at
position 0 making validation fail. -/
theorem token_roundtrip_and_tamper_witness :
    ('.' ∉ (['s'] : List Char)) ∧ ('.' ∉ (['a'] : List Char)) ∧
    jwtVerify ['s'] (jwtSign ['s'] ['a'] 0) 0 = .ok ['a'] (0 + jwtExpiresInSec) ∧
    jwtVerify ['s'] ((jwtSign ['s'] ['a'] 0).set 0 'z') 5 = .malformed :=
  ⟨by decide, by decide,
   (token_roundtrip_and_tamper ['s'] ['a'] 0 (by decide) (by decide)).1,
   (token_roundtrip_and_tamper ['s'] ['a'] 0 (by decide) (by decide)).2
     0 'z' 5 (by decide) (by decide)⟩

/-- C5: for an unverified identity holding a stored verification-token hash
and expiry, consuming fails (redirect to the failed page, the
invalid-or-expired outcome) whenever the sha-256 hash of the supplied token
differs from the stored hash or the stored expiry has passed — in
particular any time strictly after issuance plus the 24-hour lifetime; on a
matching unexpired token it sets `isVerified` and clears the stored hash and
expiry. -/
theorem verification_consume_expiry (u : User) (tok vt : List Char) (ve now : Nat)
    (hver : u.isVerified = false) (hvt : u.verifyToken = some vt)
    (hve : u.verifyExpires = some ve) :
    (sha256Hex tok ≠ vt ∨ ve < now →
      verifyEmail (some u) tok now = (.redirectFailed, some u)) ∧
    (sha256Hex tok = vt ∧ ¬ ve < now →
      verifyEmail (some u) tok now =
        (.redirectSuccess,
         some { u with isVerified := true, verifyToken := none, verifyExpires := none })) ∧
    (∀ (u0 : User) (plain tok2 : List Char) (issued now2 : Nat),
      u0.isVerified = false → issued + verificationExpiryMs < now2 →
      verifyEmail (some (generateVerificationToken u0 plain issued)) tok2 now2 =
        (.redirectFailed, some (generateVerificationToken u0 plain issued))) := by
  refine ⟨?_, ?_, ?_⟩
  · intro h
    simp [verifyEmail, hver, hvt, hve, h]
  · intro h
    simp [verifyEmail, hver, hvt, hve, h.1, h.2]
  · intro u0 plain tok2 issued now2 h0 hlt
    simp [verifyEmail, generateVerificationToken, h0, hlt]

/-- C5 witness: a wrong token fails, the right token verifies and clears,
and a token consumed strictly after issuance + 24h fails. -/
theorem verification_consume_expiry_witness :
    ({ baseUser with verifyToken := some (sha256Hex ['t']), verifyExpires := some 1000 } : User).isVerified = false ∧
    (sha256Hex ['w'] ≠ sha256Hex ['t'] ∨ (1000 : Nat) < 500) ∧
    verifyEmail (some { baseUser with verifyToken := some (sha256Hex ['t']), verifyExpires := some 1000 }) ['w'] 500 =
      (.redirectFailed, some { baseUser with verifyToken := some (sha256Hex ['t']), verifyExpires := some 1000 }) ∧
    verifyEmail (some { baseUser with verifyToken := some (sha256Hex ['t']), verifyExpires := some 1000 }) ['t'] 500 =
      (.redirectSuccess, some { baseUser with isVerified := true, verifyToken := none, verifyExpires := none }) ∧
    verifyEmail (some (generateVerificationToken baseUser ['t'] 0)) ['t'] (verificationExpiryMs + 1) =
      (.redirectFailed, some (generateVerificationToken baseUser ['t'] 0)) :=
  ⟨rfl, by decide,
   (verification_consume_expiry
     { baseUser with verifyToken := some (sha256Hex ['t']), verifyExpires := some 1000 }
     ['w'] (sha256Hex ['t']) 1000 500 rfl rfl rfl).1 (by decide),
   (verification_consume_expiry
     { baseUser with verifyToken := some (sha256Hex ['t']), verifyExpires := some 1000 }
     ['t'] (sha256Hex ['t']) 1000 500 rfl rfl rfl).2.1 (by decide),
   (verification_consume_expiry
     { baseUser with verifyToken := some (sha256Hex ['t']), verifyExpires := some 1000 }
     ['t'] (sha256Hex ['t']) 1000 500 rfl rfl rfl).2.2
     baseUser ['t'] ['t'] 0 (verificationExpiryMs + 1) rfl (by decide)⟩

/-- C6: email verification is idempotent — an already-verified identity gets
the success redirect for any supplied token with its state unchanged and no
stored token required; verifying twice with the correct token succeeds both
times while consuming the stored token only on the first call. -/
theorem verify_email_idempotent (u : User) (tok tok2 : List Char) (now now2 : Nat) :
    (u.isVerified = true → verifyEmail (some u) tok now = (.redirectSuccess, some u)) ∧
    (∀ vt ve, u.isVerified = false → u.verifyToken = some vt → u.verifyExpires = some ve →
      sha256Hex tok = vt → ¬ ve < now →
      verifyEmail (some u) tok now =
        (.redirectSuccess, some { u with isVerified := true, verifyToken := none, verifyExpires := none }) ∧
      ({ u with isVerified := true, verifyToken := none, verifyExpires := none } : User).verifyToken = none ∧
      verifyEmail (some { u with isVerified := true, verifyToken := none, verifyExpires := none }) tok2 now2 =
        (.redirectSuccess, some { u with isVerified := true, verifyToken := none, verifyExpires := none })) := by
  constructor
  · intro h
    simp [verifyEmail, h]
  · intro vt ve h0 h1 h2 h3 h4
    refine ⟨?_, rfl, ?_⟩
    · simp [verifyEmail, h0, h1, h2, h3, h4]
    · simp [verifyEmail]

/-- C6 witness: verifying twice with the correct token succeeds both times;
the second call runs on the already-verified record unchanged. -/
theorem verify_email_idempotent_witness :
    ({ baseUser with verifyToken := some (sha256Hex ['t']), verifyExpires := some 1000 } : User).isVerified = false ∧
    verifyEmail (some { baseUser with verifyToken := some (sha256Hex ['t']), verifyExpires := some 1000 }) ['t'] 500 =
      (.redirectSuccess, some { baseUser with isVerified := true, verifyToken := none, verifyExpires := none }) ∧
    verifyEmail (some { baseUser with isVerified := true, verifyToken := none, verifyExpires := none }) ['t'] 900 =
      (.redirectSuccess, some { baseUser with isVerified := true, verifyToken := none, verifyExpires := none }) :=
  ⟨rfl,
   ((verify_email_idempotent
       { baseUser with verifyToken := some (sha256Hex ['t']), verifyExpires := some 1000 }
       ['t'] ['t'] 500 900).2
     (sha256Hex ['t']) 1000 rfl rfl rfl rfl (by decide)).1,
   ((verify_email_idempotent
       { baseUser with verifyToken := some (sha256Hex ['t']), verifyExpires := some 1000 }
       ['t'] ['t'] 500 900).2
     (sha256Hex ['t']) 1000 rfl rfl rfl rfl (by decide)).2.2⟩

/-- C7: a resend for an unverified identity whose last verification email
went out strictly less than the 60-second cooldown before the request fails
with the too-many-requests outcome carrying `retryAfter ≤ 60`; a resend for
an absent email fails with the user-not-found outcome and for an
already-verified identity with the already-verified outcome. -/
theorem resend_cooldown_and_errors (u : User) (plain : List Char) (last now : Nat) :
    (resendVerification none plain now = (.userNotFound, none)) ∧
    (u.isVerified = true → resendVerification (some u) plain now = (.alreadyVerified, some u)) ∧
    (u.isVerified = false → u.lastVerificationSent = some last → last ≤ now →
      now - last < 60000 →
      resendVerification (some u) plain now =
        (.tooManyRequests (resendCooldownSeconds - (now - last) / 1000), some u) ∧
      resendCooldownSeconds - (now - last) / 1000 ≤ 60) := by
  refine ⟨rfl, ?_, ?_⟩
  · intro h
    simp [resendVerification, h]
  · intro h0 h1 h2 h3
    have helapsed : (now - last) / 1000 < resendCooldownSeconds := by
      rw [Nat.div_lt_iff_lt_mul (by norm_num : 0 < 1000)]
      simp only [resendCooldownSeconds]
      omega
    constructor
    · simp [resendVerification, h0, h1, helapsed]
    · simp [resendCooldownSeconds]

/-- C7 witness: two resends 10 seconds apart under a 60-second cooldown —
the second answers too-many-requests with retryAfter 50 ≤ 60; plus the
user-not-found and already-verified outcomes. -/
theorem resend_cooldown_and_errors_witness :
    resendVerification none ['t'] 11000 = (.userNotFound, none) ∧
    resendVerification (some { baseUser with isVerified := true }) ['t'] 11000 =
      (.alreadyVerified, some { baseUser with isVerified := true }) ∧
    ({ baseUser with lastVerificationSent := some 1000 } : User).isVerified = false ∧
    (11000 : Nat) - 1000 < 60000 ∧
    resendVerification (some { baseUser with lastVerificationSent := some 1000 }) ['t'] 11000 =
      (.tooManyRequests 50, some { baseUser with lastVerificationSent := some 1000 }) ∧
    (50 : Nat) ≤ 60 :=
  ⟨(resend_cooldown_and_errors baseUser ['t'] 0 11000).1,
   (resend_cooldown_and_errors { baseUser with isVerified := true } ['t'] 0 11000).2.1 rfl,
   rfl, by decide,
   ((resend_cooldown_and_errors { baseUser with lastVerificationSent := some 1000 } ['t'] 1000 11000).2.2
     rfl rfl (by decide) (by decide)).1,
   by decide⟩

/-- C8: a failed-password login attempt against an identity whose
`lockUntil` lies in the past sets the failed-login count to exactly 1 and
clears the expired lock, whatever the prior count. -/
theorem expired_lock_restarts_count (u : User) (pw : List Char) (t now : Nat)
    (hver : u.isVerified = true) (hact : u.isActive = true)
    (hlock : u.lockUntil = some t) (ht : t < now)
    (hpw : comparePassword pw u.password = false) :
    login (some u) pw now =
      (.invalidCredentials, some { u with loginAttempts := 1, lockUntil := none }) := by
  have hnl : ¬ now < t := by omega
  simp [login, isLocked, incLoginAttempts, lockExpired, hlock, hver, hact, hpw, hnl, ht]

/-- C8 witness: a user with 5 prior failed attempts and a lock expired at
time 10 fails a password at time 100 and restarts at count 1, lock
cleared. -/
theorem expired_lock_restarts_count_witness :
    ({ baseUser with isVerified := true, loginAttempts := 5, lockUntil := some 10 } : User).isVerified = true ∧
    (10 : Nat) < 100 ∧
    login (some { baseUser with isVerified := true, loginAttempts := 5, lockUntil := some 10 }) ['x'] 100 =
      (.invalidCredentials,
       some { baseUser with isVerified := true, loginAttempts := 1, lockUntil := none }) :=
  ⟨rfl, by decide,
   expired_lock_restarts_count
     { baseUser with isVerified := true, loginAttempts := 5, lockUntil := some 10 }
     ['x'] 10 100 rfl rfl rfl (by decide) (by decide)⟩

/-- C9: the invariant "verified implies no stored verification-token hash
and no expiry" holds for the outputs of registration and of the admin
bootstrap, is preserved by `markVerified`, by the verify-email consume and
by resend, and token issuance through resend only happens on identities
that are not verified. -/
theorem verified_clears_token_invariant (id name email rawPw plain tok : List Char)
    (now : Nat) (u u1 : User) :
    verifInvariant (registerUser id name email rawPw plain now) ∧
    verifInvariant (createAdmin id name email rawPw) ∧
    verifInvariant (markVerified u) ∧
    (verifInvariant u → (verifyEmail (some u) tok now).2 = some u1 → verifInvariant u1) ∧
    (verifInvariant u → (resendVerification (some u) plain now).2 = some u1 → verifInvariant u1) ∧
    (u.isVerified = true → resendVerification (some u) plain now = (.alreadyVerified, some u)) := by
  refine ⟨?_, ?_, ?_, ?_, ?_, ?_⟩
  · simp [verifInvariant, registerUser, generateVerificationToken, newUser]
  · simp [verifInvariant, createAdmin, newUser]
  · simp [verifInvariant, markVerified]
  · intro hinv h2
    cases hv : u.isVerified with
    | true =>
      simp [verifyEmail, hv] at h2
      subst h2
      exact hinv
    | false =>
      cases hvt : u.verifyToken with
      | none =>
        simp [verifyEmail, hv, hvt] at h2
        subst h2
        exact hinv
      | some vt =>
        cases hve : u.verifyExpires with
        | none =>
          simp [verifyEmail, hv, hvt, hve] at h2
          subst h2
          exact hinv
        | some ve =>
          by_cases hcond : sha256Hex tok ≠ vt ∨ ve < now
          · simp [verifyEmail, hv, hvt, hve, hcond] at h2
            subst h2
            exact hinv
          · simp [verifyEmail, hv, hvt, hve, hcond] at h2
            subst h2
            intro hcontra
            exact ⟨rfl, rfl⟩
  · intro hinv h2
    cases hv : u.isVerified with
    | true =>
      simp [resendVerification, hv] at h2
      subst h2
      exact hinv
    | false =>
      cases hls : u.lastVerificationSent with
      | some last =>
        by_cases hcd : (now - last) / 1000 < resendCooldownSeconds
        · simp [resendVerification, hv, hls, hcd] at h2
          subst h2
          exact hinv
        · simp [resendVerification, hv, hls, hcd] at h2
          subst h2
          intro hcontra
          simp [generateVerificationToken, hv] at hcontra
      | none =>
        simp [resendVerification, hv, hls] at h2
        subst h2
        intro hcontra
        simp [generateVerificationToken, hv] at hcontra
  · intro hv
    simp [resendVerification, hv]

/-- C9 witness: the bootstrap admin is verified with both fields clear; the
invariant passes through a concrete consume; a verified identity cannot be
re-issued a token through resend. -/
theorem verified_clears_token_invariant_witness :
    verifInvariant (createAdmin ['i'] ['n'] ['e'] ['p']) ∧
    verifInvariant baseUser ∧
    (verifyEmail (some baseUser) ['t'] 0).2 = some baseUser ∧
    verifInvariant baseUser ∧
    ({ baseUser with isVerified := true } : User).isVerified = true ∧
    resendVerification (some { baseUser with isVerified := true }) ['t'] 0 =
      (.alreadyVerified, some { baseUser with isVerified := true }) :=
  ⟨(verified_clears_token_invariant ['i'] ['n'] ['e'] ['p'] ['t'] ['t'] 0 baseUser baseUser).2.1,
   by intro h; exact absurd h (by decide), by decide,
   (verified_clears_token_invariant ['i'] ['n'] ['e'] ['p'] ['t'] ['t'] 0 baseUser baseUser).2.2.2.1
     (by intro h; exact absurd h (by decide)) (by decide),
   rfl,
   (verified_clears_token_invariant ['i'] ['n'] ['e'] ['p'] ['t'] ['t'] 0
     { baseUser with isVerified := true } baseUser).2.2.2.2.2 rfl⟩

theorem authenticateToken_ok (secret tok uid : List Char) (e now : Nat)
    (findBy : List Char → Option User) (u : User)
    (hv : jwtVerify secret tok now = .ok uid e) (hfind : findBy uid = some u)
    (hact : u.isActive = true) (hnl : isLocked u now = false) :
    authenticateToken secret (some tok) findBy now = .authenticated u := by
  simp only [authenticateToken, hv]
  rw [hfind]
  simp [hact, hnl]

/-- C10: a successful registration returns a bearer token for the new,
still-unverified identity, and `authenticateToken` accepts that token (it
checks only existence, `isActive` and the lock state, never `isVerified`) —
so the unverified account reaches token-protected endpoints without ever
passing the verification-gated login. -/
theorem register_token_bypasses_verification
    (secret uid name email rawPw plain tok : List Char) (now : Nat) (u : User)
    (hid : '.' ∉ uid)
    (hreg : register secret uid name email rawPw plain now = (tok, u)) :
    u.isVerified = false ∧
    authenticateToken secret (some tok) (fun i => if i = uid then some u else none) now =
      .authenticated u := by
  injection hreg with h1 h2
  subst h1
  subst h2
  constructor
  · rfl
  · exact authenticateToken_ok secret (generateToken secret uid now) uid
      (now + jwtExpiresInSec) now _ _ (jwtVerify_jwtSign secret uid now hid)
      (by simp) rfl rfl

/-- C10 witness: a concrete registration whose returned token authenticates
the unverified account. -/
theorem register_token_bypasses_verification_witness :
    ('.' ∉ (['a'] : List Char)) ∧
    (register ['s'] ['a'] ['n'] ['e'] ['p'] ['t'] 0).2.isVerified = false ∧
    authenticateToken ['s'] (some (register ['s'] ['a'] ['n'] ['e'] ['p'] ['t'] 0).1)
      (fun i => if i = ['a'] then some (register ['s'] ['a'] ['n'] ['e'] ['p'] ['t'] 0).2 else none) 0 =
      .authenticated (register ['s'] ['a'] ['n'] ['e'] ['p'] ['t'] 0).2 :=
  ⟨by decide,
   (register_token_bypasses_verification ['s'] ['a'] ['n'] ['e'] ['p'] ['t']
     (register ['s'] ['a'] ['n'] ['e'] ['p'] ['t'] 0).1 0
     (register ['s'] ['a'] ['n'] ['e'] ['p'] ['t'] 0).2 (by decide) rfl).1,
   (register_token_bypasses_verification ['s'] ['a'] ['n'] ['e'] ['p'] ['t']
     (register ['s'] ['a'] ['n'] ['e'] ['p'] ['t'] 0).1 0
     (register ['s'] ['a'] ['n'] ['e'] ['p'] ['t'] 0).2 (by decide) rfl).2⟩

end Portfolio
